import Mathlib

/-!
Shallow embedding of the calculation core of the Financial-Manage-Dwivan
repository: the investment-calculation utilities (series analyzer, forecast
generator, portfolio allocator), the budget form handler, and the
Alpha Vantage rate limiter.  JavaScript numbers are modelled as rationals
(all the operations involved are field operations plus `Math.round`, which
is modelled by `round : ℚ → ℤ`, the round-half-up rounding that
`Math.round` performs).
-/

namespace FinManage

/-- One historical price point as consumed by `analyzePriceMovement`
(the source takes `Array<\x7b close: number \x7d>`). -/
structure PricePoint where
  close : ℚ
deriving DecidableEq

/-- The `PriceAnalysis` record returned by `analyzePriceMovement`. -/
structure PriceAnalysis where
  startPrice : ℚ
  endPrice : ℚ
  monthlyReturn : ℚ
  monthlyCAGR : ℚ
  annualizedCAGR : ℚ
  annualizedReturn : ℚ
  forecastedPrice30Days : ℚ
  highPrice : ℚ
  lowPrice : ℚ
deriving DecidableEq

/-- `calculateMonthlyReturn(startPrice, endPrice)`: simple monthly return,
0 when `startPrice <= 0`. -/
def calculateMonthlyReturn (startPrice endPrice : ℚ) : ℚ :=
  if startPrice ≤ 0 then 0 else (endPrice - startPrice) / startPrice

/-- `annualizeReturn(thirtyDayReturn)`: simple annualization, return × 12. -/
def annualizeReturn (thirtyDayReturn : ℚ) : ℚ :=
  let periodsPerYear : ℚ := 12
  thirtyDayReturn * periodsPerYear

/-- `analyzePriceMovement(historicalPrices)`.  `Math.max(...prices)` and
`Math.min(...prices)` over the non-empty list of closes are folds of
`max` / `min` over the closes, started at the first close. -/
def analyzePriceMovement : List PricePoint → PriceAnalysis
  | [] =>
      { startPrice := 0, endPrice := 0, monthlyReturn := 0, monthlyCAGR := 0,
        annualizedCAGR := 0, annualizedReturn := 0, forecastedPrice30Days := 0,
        highPrice := 0, lowPrice := 0 }
  | p :: ps =>
      let startPrice := p.close
      let endPrice := ((p :: ps).getLast (List.cons_ne_nil p ps)).close
      let highPrice := (ps.map (·.close)).foldl max p.close
      let lowPrice := (ps.map (·.close)).foldl min p.close
      let monthlyReturnDecimal := calculateMonthlyReturn startPrice endPrice
      let monthlyReturn := monthlyReturnDecimal * 100
      let annualizedCAGR := annualizeReturn monthlyReturnDecimal
      let annualizedReturn := annualizedCAGR * 100
      let monthlyForecastRate := annualizedCAGR / 12
      let forecastedPrice30Days := endPrice * (1 + monthlyForecastRate)
      { startPrice := startPrice, endPrice := endPrice,
        monthlyReturn := monthlyReturn, monthlyCAGR := monthlyReturnDecimal,
        annualizedCAGR := annualizedCAGR, annualizedReturn := annualizedReturn,
        forecastedPrice30Days := forecastedPrice30Days,
        highPrice := highPrice, lowPrice := lowPrice }

/-- `generateForecastData(currentPrice, annualizedCAGR, days)`: the sequence
of projected prices for day indices `0..days`.  Each stored price is
`Math.round(projectedPrice)` (an integer-valued number, modelled as the
cast of `round`).  The locale-formatted date label attached to each point
is wall-clock presentation data and is not modelled. -/
def generateForecastData (currentPrice annualizedCAGR : ℚ) (days : ℕ) : List ℚ :=
  let monthlyRate := annualizedCAGR / 12
  (List.range (days + 1)).map (fun (i : ℕ) =>
    let growthFactor := (monthlyRate * (i : ℚ)) / (days : ℚ)
    let projectedPrice := currentPrice * (1 + growthFactor)
    ((round projectedPrice : ℤ) : ℚ))

/-- The three risk profiles of the union type
`"conservative" | "balanced" | "aggressive"`. -/
inductive RiskProfile where
  | conservative
  | balanced
  | aggressive
deriving DecidableEq

/-- One entry of the `AllocationRecommendation` table. -/
structure AllocationRecommendation where
  name : String
  weight : ℚ
  riskLevel : String
  description : String
deriving DecidableEq

/-- JavaScript `s.includes(sub)`: `sub` occurs as a contiguous substring
of `s`. -/
def stringIncludes (s sub : String) : Bool :=
  decide (sub.toList <:+: s.toList)

def spyName : String := "S&P 500 Index (SPY)"

def jnjName : String := "Johnson & Johnson (JNJ)"

def aaplName : String := "Apple (AAPL)"

def lowRisk : String := "Low"

def highRisk : String := "High"

/-- `getPortfolioAllocation(riskProfile)`: the fixed three-entry allocation
table of each profile.  The source's `default:` branch returning `[]` is
unreachable for the three-value union type and has no counterpart here. -/
def getPortfolioAllocation : RiskProfile → List AllocationRecommendation
  | RiskProfile.conservative =>
      [ { name := spyName, weight := 0.5, riskLevel := lowRisk,
          description := "50% - Core stable foundation with broad diversification" },
        { name := jnjName, weight := 0.3, riskLevel := lowRisk,
          description := "30% - Healthcare dividend stock with strong stability" },
        { name := aaplName, weight := 0.2, riskLevel := highRisk,
          description := "20% - Individual growth stock for capital appreciation" } ]
  | RiskProfile.balanced =>
      [ { name := spyName, weight := 0.4, riskLevel := lowRisk,
          description := "40% - Diversified market base" },
        { name := jnjName, weight := 0.35, riskLevel := lowRisk,
          description := "35% - Quality dividend-paying healthcare stock" },
        { name := aaplName, weight := 0.25, riskLevel := highRisk,
          description := "25% - Growth and potential upside" } ]
  | RiskProfile.aggressive =>
      [ { name := spyName, weight := 0.3, riskLevel := lowRisk,
          description := "30% - Market participation" },
        { name := jnjName, weight := 0.4, riskLevel := lowRisk,
          description := "40% - Defensive dividend stock with growth" },
        { name := aaplName, weight := 0.3, riskLevel := highRisk,
          description := "30% - Maximum growth potential" } ]

def spySymbol : String := "SPY"

def jnjSymbol : String := "JNJ"

def aaplSymbol : String := "AAPL"

/-- `calculatePortfolioReturnByProfile(riskProfile, stockReturns)`.
JavaScript `stockReturns[i]` is modelled by `getD i 0`; the indices are in
range under the length guard.  `alloc?.weight || 0` yields the found
entry's weight or 0 when no entry matches (all table weights are nonzero,
so `|| 0` coincides with the `getD 0` default). -/
def calculatePortfolioReturnByProfile
    (riskProfile : RiskProfile) (stockReturns : List ℚ) : ℚ :=
  if stockReturns.length < 3 then 0
  else
    let allocations := getPortfolioAllocation riskProfile
    let spyReturn := stockReturns.getD 0 0
    let jnjReturn := stockReturns.getD 1 0
    let aaplReturn := stockReturns.getD 2 0
    let spyWeight :=
      ((allocations.find? (fun a => stringIncludes a.name spySymbol)).map
        (·.weight)).getD 0
    let jnjWeight :=
      ((allocations.find? (fun a => stringIncludes a.name jnjSymbol)).map
        (·.weight)).getD 0
    let aaplWeight :=
      ((allocations.find? (fun a => stringIncludes a.name aaplSymbol)).map
        (·.weight)).getD 0
    ((spyReturn / 100) * spyWeight + (jnjReturn / 100) * jnjWeight +
      (aaplReturn / 100) * aaplWeight) * 100

/-- The budget form's five text fields (`FormData` in
`FinancialPlanner.tsx`). -/
structure FormData where
  monthlySalary : String
  primaryExpenses : String
  secondaryExpenses : String
  savings : String
  pocketMoney : String

/-- `parseIDR(value)`: `parseInt(value.replace(/\D/g, "")) || 0` — strip
every non-digit character and read the remaining digit string as a decimal
integer; an empty digit string (`parseInt` gives `NaN`) falls back to 0,
which is the fold's base value. -/
def parseIDR (value : String) : ℕ :=
  (value.toList.filter Char.isDigit).foldl
    (fun acc c => acc * 10 + (c.toNat - 48)) 0

/-- The `remaining` value computed by `handleSubmit` and stored in the
`remainingMoney` state:
`salary - primary - secondary - savings - pocket`. -/
def handleSubmitRemaining (f : FormData) : ℤ :=
  let salary := (parseIDR f.monthlySalary : ℤ)
  let primary := (parseIDR f.primaryExpenses : ℤ)
  let secondary := (parseIDR f.secondaryExpenses : ℤ)
  let savings := (parseIDR f.savings : ℤ)
  let pocket := (parseIDR f.pocketMoney : ℤ)
  salary - primary - secondary - savings - pocket

/-- The `remainingMoney` prop received by `InvestmentRecommendations`:
`FinancialPlanner` renders `<InvestmentRecommendations
remainingMoney=\x7bremainingMoney\x7d ... />` with the state value set by
`handleSubmit`, so the component receives that value verbatim (no clamp,
no error path on negative values). -/
def investmentRecommendationsRemainingMoney (f : FormData) : ℤ :=
  handleSubmitRemaining f

/-- `RATE_LIMIT_MS = 12000`: 5 calls per minute, one call every 12 s.
Times are in integer milliseconds. -/
def RATE_LIMIT_MS : ℤ := 12000

/-- `waitForRateLimit()`, modelled as a transition on the module-level
`lastCallTime` state.  `lastCallTime` is the shared timestamp before the
call, `now` is `Date.now()` when the call runs, and `slack ≥ 0` models
that `setTimeout(waitTime)` resumes no earlier than `waitTime`
milliseconds later.  The returned value is the new `lastCallTime` — the
single update the call performs, taken after its wait and immediately
before `fetchAlphaVantageData` issues the network request, so it is also
the request-issue time. -/
def waitForRateLimit (lastCallTime now slack : ℤ) : ℤ :=
  let timeSinceLastCall := now - lastCallTime
  if timeSinceLastCall < RATE_LIMIT_MS then
    let waitTime := RATE_LIMIT_MS - timeSinceLastCall
    now + waitTime + slack
  else
    now

lemma generateForecastData_length (p r : ℚ) (d : ℕ) :
    (generateForecastData p r d).length = d + 1 := by
  unfold generateForecastData
  simp

lemma generateForecastData_getElem (p r : ℚ) (d i : ℕ) (hi : i ≤ d) :
    (generateForecastData p r d)[i]? =
      some (((round (p * (1 + (r / 12) * ((i : ℚ) / (d : ℚ)))) : ℤ) : ℚ)) := by
  unfold generateForecastData
  rw [List.getElem?_map, List.getElem?_range (Nat.lt_succ_of_le hi)]
  simp [mul_div_assoc]

lemma round_mono_of_le {x y : ℚ} (h : x ≤ y) : round x ≤ round y := by
  rw [round_eq, round_eq]
  exact Int.floor_le_floor (by linarith)

lemma le_foldl_max (a : ℚ) (l : List ℚ) : a ≤ l.foldl max a := by
  induction l generalizing a with
  | nil => exact le_refl a
  | cons b t ih => exact le_trans (le_max_left a b) (ih (max a b))

lemma mem_le_foldl_max (l : List ℚ) : ∀ a x : ℚ, x ∈ l → x ≤ l.foldl max a := by
  induction l with
  | nil => intro a x hx; cases hx
  | cons b t ih =>
      intro a x hx
      rcases List.mem_cons.mp hx with h | h
      · subst h
        exact le_trans (le_max_right a x) (le_foldl_max (max a x) t)
      · exact ih (max a b) x h

lemma foldl_min_le (a : ℚ) (l : List ℚ) : l.foldl min a ≤ a := by
  induction l generalizing a with
  | nil => exact le_refl a
  | cons b t ih => exact le_trans (ih (min a b)) (min_le_left a b)

lemma foldl_min_le_mem (l : List ℚ) : ∀ a x : ℚ, x ∈ l → l.foldl min a ≤ x := by
  induction l with
  | nil => intro a x hx; cases hx
  | cons b t ih =>
      intro a x hx
      rcases List.mem_cons.mp hx with h | h
      · subst h
        exact le_trans (foldl_min_le (min a x) t) (min_le_right a x)
      · exact ih (min a b) x h

lemma analyze_cons_startPrice (p : PricePoint) (ps : List PricePoint) :
    (analyzePriceMovement (p :: ps)).startPrice = p.close := rfl

lemma analyze_cons_endPrice (p : PricePoint) (ps : List PricePoint) :
    (analyzePriceMovement (p :: ps)).endPrice =
      ((p :: ps).getLast (List.cons_ne_nil p ps)).close := rfl

lemma analyze_cons_highPrice (p : PricePoint) (ps : List PricePoint) :
    (analyzePriceMovement (p :: ps)).highPrice =
      (ps.map (·.close)).foldl max p.close := rfl

lemma analyze_cons_lowPrice (p : PricePoint) (ps : List PricePoint) :
    (analyzePriceMovement (p :: ps)).lowPrice =
      (ps.map (·.close)).foldl min p.close := rfl

lemma analyze_cons_monthlyCAGR (p : PricePoint) (ps : List PricePoint) :
    (analyzePriceMovement (p :: ps)).monthlyCAGR =
      calculateMonthlyReturn p.close
        (((p :: ps).getLast (List.cons_ne_nil p ps)).close) := rfl

lemma analyze_cons_annualizedCAGR (p : PricePoint) (ps : List PricePoint) :
    (analyzePriceMovement (p :: ps)).annualizedCAGR =
      annualizeReturn (calculateMonthlyReturn p.close
        (((p :: ps).getLast (List.cons_ne_nil p ps)).close)) := rfl

lemma forecastedPrice30Days_eq (s : List PricePoint) :
    (analyzePriceMovement s).forecastedPrice30Days =
      (analyzePriceMovement s).endPrice *
        (1 + (analyzePriceMovement s).annualizedCAGR / 12) := by
  cases s with
  | nil => norm_num [analyzePriceMovement]
  | cons p ps => rfl

/-- C1: for every non-empty price series, the analysis returned by
`analyzePriceMovement` has period return (`monthlyCAGR`) equal to
`(endPrice - startPrice) / startPrice`, equal to 0 when
`startPrice ≤ 0`, and has `annualizedCAGR` equal to exactly 12 times that
period return. -/
theorem C1_period_return_and_annualized_rate (s : List PricePoint) (h : s ≠ []) :
    ((analyzePriceMovement s).startPrice ≤ 0 →
      (analyzePriceMovement s).monthlyCAGR = 0) ∧
    (0 < (analyzePriceMovement s).startPrice →
      (analyzePriceMovement s).monthlyCAGR =
        ((analyzePriceMovement s).endPrice - (analyzePriceMovement s).startPrice) /
          (analyzePriceMovement s).startPrice) ∧
    (analyzePriceMovement s).annualizedCAGR =
      12 * (analyzePriceMovement s).monthlyCAGR := by
  cases s with
  | nil => exact absurd rfl h
  | cons p ps =>
      rw [analyze_cons_startPrice, analyze_cons_monthlyCAGR,
        analyze_cons_endPrice, analyze_cons_annualizedCAGR]
      unfold calculateMonthlyReturn annualizeReturn
      refine ⟨fun h0 => if_pos h0, fun h0 => ?_, by split <;> ring⟩
      rw [if_neg (not_le.mpr h0)]

/-- C1 witness: the series `[100, 110]` is non-empty and its annualized
rate is 12 times its period return. -/
theorem C1_witness :
    (analyzePriceMovement [⟨100⟩, ⟨110⟩]).annualizedCAGR =
      12 * (analyzePriceMovement [⟨100⟩, ⟨110⟩]).monthlyCAGR :=
  (C1_period_return_and_annualized_rate [⟨100⟩, ⟨110⟩] (by simp)).2.2

/-- C2 counterexample: the claim says the day-0 entry's projected price
equals `currentPrice`, but `generateForecastData` stores
`Math.round(projectedPrice)`: at `currentPrice = 201/2`, rate 0 and
horizon 1 the day-0 entry is 101, not `201/2`. -/
theorem C2_counterexample_day0_rounded :
    (generateForecastData (201 / 2) 0 1)[0]? = some ((101 : ℚ)) ∧
    ((101 : ℚ)) ≠ 201 / 2 := by
  constructor
  · rw [generateForecastData_getElem (201 / 2) 0 1 0 (by norm_num)]
    norm_num [round_eq]
  · norm_num

/-- C2 (amended): for every `currentPrice`, `annualizedRate` and
`horizonDays ≥ 1`, `generateForecastData` returns exactly
`horizonDays + 1` points, and the day-`i` entry's projected price is
`Math.round(currentPrice * (1 + (annualizedRate/12) * (i/horizonDays)))`
— the rounding of the linear-interpolation value (so day 0 holds the
rounding of `currentPrice`, not necessarily `currentPrice` itself). -/
theorem C2_forecast_length_and_values (p r : ℚ) (d : ℕ) (hd : 1 ≤ d) :
    (generateForecastData p r d).length = d + 1 ∧
    ∀ i : ℕ, i ≤ d →
      (generateForecastData p r d)[i]? =
        some (((round (p * (1 + (r / 12) * ((i : ℚ) / (d : ℚ)))) : ℤ) : ℚ)) :=
  ⟨generateForecastData_length p r d,
    fun i hi => generateForecastData_getElem p r d i hi⟩

/-- C2 witness: `generateForecastData 100 (6/5) 30` has 31 entries and its
day-30 entry is 110, as in the spec's worked example. -/
theorem C2_witness :
    (1 : ℕ) ≤ 30 ∧ (generateForecastData 100 (6 / 5) 30).length = 31 ∧
      (generateForecastData 100 (6 / 5) 30)[30]? = some ((110 : ℚ)) := by
  have h := C2_forecast_length_and_values 100 (6 / 5) 30 (by norm_num)
  refine ⟨by norm_num, h.1, ?_⟩
  rw [h.2 30 (by norm_num)]
  norm_num [round_eq]

/-- C7: `analyzePriceMovement []` returns the record with every field equal
to 0, and (being a total function) raises no error. -/
theorem C7_empty_series_all_zero :
    analyzePriceMovement [] =
      { startPrice := 0, endPrice := 0, monthlyReturn := 0, monthlyCAGR := 0,
        annualizedCAGR := 0, annualizedReturn := 0, forecastedPrice30Days := 0,
        highPrice := 0, lowPrice := 0 } := rfl

/-- C10: every projected price stored by `generateForecastData` is a whole
number (the cast of an integer), because each value is rounded to the
nearest integer before being stored; in particular the day-0 entry equals
the rounding of `currentPrice` rather than `currentPrice` itself. -/
theorem C10_projected_prices_whole (p r : ℚ) (d : ℕ) (hd : 1 ≤ d) :
    (∀ q ∈ generateForecastData p r d, ∃ z : ℤ, q = (z : ℚ)) ∧
    (generateForecastData p r d)[0]? = some (((round p : ℤ) : ℚ)) := by
  constructor
  · intro q hq
    unfold generateForecastData at hq
    simp only [List.mem_map, List.mem_range] at hq
    obtain ⟨i, _, hq⟩ := hq
    exact ⟨_, hq.symm⟩
  · rw [generateForecastData_getElem p r d 0 (Nat.zero_le d)]
    norm_num

/-- C10 witness: with `currentPrice = 5/2` the day-0 entry is 3, the
rounding of `5/2`. -/
theorem C10_witness :
    (1 : ℕ) ≤ 2 ∧ (generateForecastData (5 / 2) 0 2)[0]? = some ((3 : ℚ)) := by
  refine ⟨by norm_num, ?_⟩
  rw [(C10_projected_prices_whole (5 / 2) 0 2 (by norm_num)).2]
  norm_num [round_eq]

/-- C3 counterexample: for the series `[100, 201/2]` the analysis has
`forecastedPrice30Days = 40401/400` and rate `3/50 > 0`, but the day-30
entry of `generateForecastData endPrice annualizedCAGR 30` is the rounded
value 101 — not the same value as `forecastedPrice30Days`. -/
theorem C3_counterexample_endpoint_rounded :
    (generateForecastData (analyzePriceMovement [⟨100⟩, ⟨201 / 2⟩]).endPrice
        (analyzePriceMovement [⟨100⟩, ⟨201 / 2⟩]).annualizedCAGR 30)[30]? =
      some ((101 : ℚ)) ∧
    0 < (analyzePriceMovement [⟨100⟩, ⟨201 / 2⟩]).annualizedCAGR ∧
    ((101 : ℚ)) ≠ (analyzePriceMovement [⟨100⟩, ⟨201 / 2⟩]).forecastedPrice30Days := by
  have ha : analyzePriceMovement [⟨100⟩, ⟨201 / 2⟩] =
      { startPrice := 100, endPrice := 201 / 2, monthlyReturn := 1 / 2,
        monthlyCAGR := 1 / 200, annualizedCAGR := 3 / 50, annualizedReturn := 6,
        forecastedPrice30Days := 40401 / 400, highPrice := 201 / 2,
        lowPrice := 100 } := by
    norm_num [analyzePriceMovement, calculateMonthlyReturn, annualizeReturn,
      List.getLast]
  rw [ha]
  refine ⟨?_, by norm_num, by norm_num⟩
  rw [generateForecastData_getElem (201 / 2) (3 / 50) 30 30 le_rfl]
  norm_num [round_eq]

/-- C3 (amended): for every non-empty price series, the day-30 entry of
`generateForecastData endPrice annualizedCAGR 30` equals the rounding of
`endPrice * (1 + annualizedCAGR/12)`, i.e. of the analysis's
`forecastedPrice30Days` field (equal to that field only up to rounding);
and when `annualizedCAGR > 0` and `endPrice ≥ 0` the projected prices are
monotonically non-decreasing in the day index. -/
theorem C3_endpoint_and_monotone (s : List PricePoint) (h : s ≠ []) :
    (generateForecastData (analyzePriceMovement s).endPrice
        (analyzePriceMovement s).annualizedCAGR 30)[30]? =
      some (((round (analyzePriceMovement s).forecastedPrice30Days : ℤ) : ℚ)) ∧
    (0 < (analyzePriceMovement s).annualizedCAGR →
      0 ≤ (analyzePriceMovement s).endPrice →
      ∀ i j : ℕ, i ≤ j → j ≤ 30 → ∀ x y : ℚ,
        (generateForecastData (analyzePriceMovement s).endPrice
          (analyzePriceMovement s).annualizedCAGR 30)[i]? = some x →
        (generateForecastData (analyzePriceMovement s).endPrice
          (analyzePriceMovement s).annualizedCAGR 30)[j]? = some y →
        x ≤ y) := by
  constructor
  · rw [generateForecastData_getElem _ _ 30 30 le_rfl, forecastedPrice30Days_eq]
    norm_num
  · intro hr hp i j hij hj x y hx hy
    rw [generateForecastData_getElem _ _ 30 i (le_trans hij hj)] at hx
    rw [generateForecastData_getElem _ _ 30 j hj] at hy
    obtain rfl : _ = x := Option.some.inj hx
    obtain rfl : _ = y := Option.some.inj hy
    have hiq : (i : ℚ) ≤ (j : ℚ) := Nat.cast_le.mpr hij
    have hdiv : (i : ℚ) / ((30 : ℕ) : ℚ) ≤ (j : ℚ) / ((30 : ℕ) : ℚ) := by
      apply div_le_div_of_nonneg_right hiq
      norm_num
    have hmul : (analyzePriceMovement s).annualizedCAGR / 12 *
          ((i : ℚ) / ((30 : ℕ) : ℚ)) ≤
        (analyzePriceMovement s).annualizedCAGR / 12 *
          ((j : ℚ) / ((30 : ℕ) : ℚ)) := by
      apply mul_le_mul_of_nonneg_left hdiv
      positivity
    have hgrow : (analyzePriceMovement s).endPrice *
          (1 + (analyzePriceMovement s).annualizedCAGR / 12 *
            ((i : ℚ) / ((30 : ℕ) : ℚ))) ≤
        (analyzePriceMovement s).endPrice *
          (1 + (analyzePriceMovement s).annualizedCAGR / 12 *
            ((j : ℚ) / ((30 : ℕ) : ℚ))) := by
      apply mul_le_mul_of_nonneg_left _ hp
      linarith
    exact_mod_cast round_mono_of_le hgrow

/-- C3 witness: for the series `[100, 110]` (rate `6/5 > 0`) the day-30
forecast entry is 121, the rounding of `forecastedPrice30Days = 121`. -/
theorem C3_witness :
    (generateForecastData (analyzePriceMovement [⟨100⟩, ⟨110⟩]).endPrice
        (analyzePriceMovement [⟨100⟩, ⟨110⟩]).annualizedCAGR 30)[30]? =
      some ((121 : ℚ)) := by
  have h := (C3_endpoint_and_monotone [⟨100⟩, ⟨110⟩] (by simp)).1
  rw [h]
  have ha : analyzePriceMovement [⟨100⟩, ⟨110⟩] =
      { startPrice := 100, endPrice := 110, monthlyReturn := 10,
        monthlyCAGR := 1 / 10, annualizedCAGR := 6 / 5, annualizedReturn := 120,
        forecastedPrice30Days := 121, highPrice := 110, lowPrice := 100 } := by
    norm_num [analyzePriceMovement, calculateMonthlyReturn, annualizeReturn,
      List.getLast]
  rw [ha]
  norm_num [round_eq]

/-- C4: each risk profile's allocation table has exactly three entries
whose weights sum to 1, and the conservative profile's weights are
exactly 0.5, 0.3 and 0.2. -/
theorem C4_allocation_weights :
    (∀ rp : RiskProfile, (getPortfolioAllocation rp).length = 3 ∧
      ((getPortfolioAllocation rp).map (·.weight)).sum = 1) ∧
    ((getPortfolioAllocation RiskProfile.conservative).map (·.weight)) =
      [0.5, 0.3, 0.2] := by
  refine ⟨fun rp => ?_, ?_⟩
  · cases rp <;> norm_num [getPortfolioAllocation]
  · norm_num [getPortfolioAllocation]

lemma includes_spyName_spy : stringIncludes spyName spySymbol = true := by decide

lemma includes_spyName_jnj : stringIncludes spyName jnjSymbol = false := by decide

lemma includes_spyName_aapl : stringIncludes spyName aaplSymbol = false := by decide

lemma includes_jnjName_spy : stringIncludes jnjName spySymbol = false := by decide

lemma includes_jnjName_jnj : stringIncludes jnjName jnjSymbol = true := by decide

lemma includes_jnjName_aapl : stringIncludes jnjName aaplSymbol = false := by decide

lemma includes_aaplName_spy : stringIncludes aaplName spySymbol = false := by decide

lemma includes_aaplName_jnj : stringIncludes aaplName jnjSymbol = false := by decide

lemma includes_aaplName_aapl : stringIncludes aaplName aaplSymbol = true := by decide

/-- C5: `calculatePortfolioReturnByProfile` returns 0 when fewer than 3
returns are supplied, and otherwise returns
`Σ (weight_i * return_i / 100) * 100` where the weights are the profile's
table weights in order (index 0 = SPY, 1 = JNJ, 2 = AAPL). -/
theorem C5_weighted_return (rp : RiskProfile) (rs : List ℚ) :
    (rs.length < 3 → calculatePortfolioReturnByProfile rp rs = 0) ∧
    (∀ a b c : ℚ, ∀ rest : List ℚ, rs = a :: b :: c :: rest →
      calculatePortfolioReturnByProfile rp rs =
        (((getPortfolioAllocation rp).map (·.weight)).getD 0 0 * (a / 100) +
          ((getPortfolioAllocation rp).map (·.weight)).getD 1 0 * (b / 100) +
          ((getPortfolioAllocation rp).map (·.weight)).getD 2 0 * (c / 100)) *
          100) := by
  constructor
  · intro hlen
    unfold calculatePortfolioReturnByProfile
    rw [if_pos hlen]
  · rintro a b c rest rfl
    cases rp <;>
      · unfold calculatePortfolioReturnByProfile
        rw [if_neg (by simp)]
        simp only [getPortfolioAllocation, List.find?, includes_spyName_spy,
          includes_spyName_jnj, includes_spyName_aapl, includes_jnjName_spy,
          includes_jnjName_jnj, includes_jnjName_aapl, includes_aaplName_spy,
          includes_aaplName_jnj, includes_aaplName_aapl, Option.map_some,
          Option.map_some', Option.getD_some, List.getD, List.map_cons,
          List.map_nil, List.get?_cons_zero, List.get?_cons_succ]
        ring_nf

/-- C5 witness: the conservative profile applied to returns
`[10, 20, 30]` yields `(0.5·0.1 + 0.3·0.2 + 0.2·0.3) · 100 = 17`. -/
theorem C5_witness :
    calculatePortfolioReturnByProfile RiskProfile.conservative [10, 20, 30] =
      17 := by
  have h := (C5_weighted_return RiskProfile.conservative [10, 20, 30]).2
    10 20 30 [] rfl
  rw [h]
  norm_num [getPortfolioAllocation]

/-- C6: the remaining budget equals income minus the sum of the four
expense categories; input with no digit characters (absent or
unparseable) parses to 0; and when the expenses exceed the income the
value received by `InvestmentRecommendations` is the same negative
number, not clamped and not an error. -/
theorem C6_remaining_budget (f : FormData) :
    investmentRecommendationsRemainingMoney f =
      (parseIDR f.monthlySalary : ℤ) -
        ((parseIDR f.primaryExpenses : ℤ) + (parseIDR f.secondaryExpenses : ℤ) +
          (parseIDR f.savings : ℤ) + (parseIDR f.pocketMoney : ℤ)) ∧
    (∀ s : String, (∀ c ∈ s.toList, ¬ c.isDigit) → parseIDR s = 0) ∧
    ((parseIDR f.monthlySalary : ℤ) <
        (parseIDR f.primaryExpenses : ℤ) + (parseIDR f.secondaryExpenses : ℤ) +
          (parseIDR f.savings : ℤ) + (parseIDR f.pocketMoney : ℤ) →
      investmentRecommendationsRemainingMoney f < 0) := by
  have key : investmentRecommendationsRemainingMoney f =
      (parseIDR f.monthlySalary : ℤ) -
        ((parseIDR f.primaryExpenses : ℤ) + (parseIDR f.secondaryExpenses : ℤ) +
          (parseIDR f.savings : ℤ) + (parseIDR f.pocketMoney : ℤ)) := by
    unfold investmentRecommendationsRemainingMoney handleSubmitRemaining
    ring
  refine ⟨key, fun s hs => ?_, fun hlt => by rw [key]; linarith⟩
  have hnil : s.toList.filter Char.isDigit = [] := by
    rw [List.filter_eq_nil_iff]
    intro c hc
    simpa using hs c hc
  unfold parseIDR
  rw [hnil]
  rfl

/-- C6 witness: income `"1.000.000"` with a single expense category
`"1.500.000"` (the others blank, parsing to 0) gives −500000, which is
negative. -/
theorem C6_witness :
    investmentRecommendationsRemainingMoney
        { monthlySalary := "1.000.000", primaryExpenses := "1.500.000",
          secondaryExpenses := "", savings := "", pocketMoney := "" } =
      -500000 ∧
    investmentRecommendationsRemainingMoney
        { monthlySalary := "1.000.000", primaryExpenses := "1.500.000",
          secondaryExpenses := "", savings := "", pocketMoney := "" } < 0 := by
  have h := C6_remaining_budget
    { monthlySalary := "1.000.000", primaryExpenses := "1.500.000",
      secondaryExpenses := "", savings := "", pocketMoney := "" }
  refine ⟨?_, h.2.2 (by decide)⟩
  rw [h.1]
  decide

/-- C8: for every non-empty price series, every close price of the series
lies between the analysis's `lowPrice` and `highPrice` (which are the
minimum and maximum of the close prices); in particular both `startPrice`
and `endPrice` lie between `lowPrice` and `highPrice`. -/
theorem C8_low_high_bounds (s : List PricePoint) (h : s ≠ []) :
    (∀ p ∈ s, (analyzePriceMovement s).lowPrice ≤ p.close ∧
      p.close ≤ (analyzePriceMovement s).highPrice) ∧
    (analyzePriceMovement s).lowPrice ≤ (analyzePriceMovement s).startPrice ∧
    (analyzePriceMovement s).startPrice ≤ (analyzePriceMovement s).highPrice ∧
    (analyzePriceMovement s).lowPrice ≤ (analyzePriceMovement s).endPrice ∧
    (analyzePriceMovement s).endPrice ≤ (analyzePriceMovement s).highPrice := by
  cases s with
  | nil => exact absurd rfl h
  | cons p ps =>
      have hall : ∀ q ∈ p :: ps,
          (analyzePriceMovement (p :: ps)).lowPrice ≤ q.close ∧
          q.close ≤ (analyzePriceMovement (p :: ps)).highPrice := by
        intro q hq
        rw [analyze_cons_lowPrice, analyze_cons_highPrice]
        rcases List.mem_cons.mp hq with hq | hq
        · subst hq
          exact ⟨foldl_min_le q.close (ps.map (·.close)),
            le_foldl_max q.close (ps.map (·.close))⟩
        · have hmem : q.close ∈ ps.map (·.close) :=
            List.mem_map_of_mem (·.close) hq
          exact ⟨foldl_min_le_mem (ps.map (·.close)) p.close q.close hmem,
            mem_le_foldl_max (ps.map (·.close)) p.close q.close hmem⟩
      have hstart := hall p (List.mem_cons_self p ps)
      have hlast := hall ((p :: ps).getLast (List.cons_ne_nil p ps))
        (List.getLast_mem (List.cons_ne_nil p ps))
      rw [analyze_cons_startPrice, analyze_cons_endPrice]
      exact ⟨hall, hstart.1, hstart.2, hlast.1, hlast.2⟩

/-- C8 witness: for the series `[5, 3, 7]` the analysis bounds hold at the
start and end closes. -/
theorem C8_witness :
    ([⟨5⟩, ⟨3⟩, ⟨7⟩] : List PricePoint) ≠ [] ∧
    (analyzePriceMovement [⟨5⟩, ⟨3⟩, ⟨7⟩]).lowPrice ≤
      (analyzePriceMovement [⟨5⟩, ⟨3⟩, ⟨7⟩]).startPrice ∧
    (analyzePriceMovement [⟨5⟩, ⟨3⟩, ⟨7⟩]).startPrice ≤
      (analyzePriceMovement [⟨5⟩, ⟨3⟩, ⟨7⟩]).highPrice :=
  ⟨by simp, (C8_low_high_bounds [⟨5⟩, ⟨3⟩, ⟨7⟩] (by simp)).2.1,
    (C8_low_high_bounds [⟨5⟩, ⟨3⟩, ⟨7⟩] (by simp)).2.2.1⟩

/-- C9: with the shared `lastCallTime` passed explicitly and `slack ≥ 0`
modelling that `setTimeout` never resumes early, two consecutively
completed calls issue their requests (at the times they write into the
shared timestamp) at least `RATE_LIMIT_MS = 12000` ms apart; a call that
runs before the spacing has elapsed is suspended exactly until
`lastCallTime + RATE_LIMIT_MS` (plus timer slack). -/
theorem C9_global_throttle_spacing (t0 now1 slack1 now2 slack2 : ℤ)
    (h1 : 0 ≤ slack1) (h2 : 0 ≤ slack2) :
    RATE_LIMIT_MS ≤ waitForRateLimit t0 now1 slack1 - t0 ∧
    RATE_LIMIT_MS ≤
      waitForRateLimit (waitForRateLimit t0 now1 slack1) now2 slack2 -
        waitForRateLimit t0 now1 slack1 ∧
    (now2 - waitForRateLimit t0 now1 slack1 < RATE_LIMIT_MS →
      waitForRateLimit (waitForRateLimit t0 now1 slack1) now2 slack2 =
        waitForRateLimit t0 now1 slack1 + RATE_LIMIT_MS + slack2) := by
  have step : ∀ last now slack : ℤ, 0 ≤ slack →
      RATE_LIMIT_MS ≤ waitForRateLimit last now slack - last := by
    intro last now slack hs
    unfold waitForRateLimit RATE_LIMIT_MS
    dsimp only
    split <;> omega
  refine ⟨step t0 now1 slack1 h1, step _ now2 slack2 h2, fun hlt => ?_⟩
  unfold waitForRateLimit RATE_LIMIT_MS
  dsimp only
  rw [if_pos (by exact_mod_cast hlt)]
  ring

/-- C9 witness: with `lastCallTime = 0`, a first call at `now = 5000` and
a second at `now = 15000` (exact timers), the two request times are
12000 ms apart. -/
theorem C9_witness :
    (0 : ℤ) ≤ 0 ∧
    RATE_LIMIT_MS ≤ waitForRateLimit (waitForRateLimit 0 5000 0) 15000 0 -
      waitForRateLimit 0 5000 0 :=
  ⟨le_refl 0, (C9_global_throttle_spacing 0 5000 0 15000 0 (le_refl 0)
    (le_refl 0)).2.1⟩

end FinManage
